import Mathlib

/-!
Verification of the corpus-management module `pythainlp/corpus/core.py`.

The Python module is shallowly embedded: external effects (the HTTP catalog
fetch, the file download, the filesystem) are passed in as explicit oracle
arguments; the TinyDB metadata store is a list of records; Python exceptions
become an `Except` result; `print`-level reports that the specification talks
about are recorded as boolean flags in the result structure.
-/

namespace PyThaiNLP

/-- One version entry of a catalog entry: `versions[v]` in the remote catalog
JSON, holding `filename`, `download_url` and `md5`. -/
structure VersionInfo where
  filename : String
  download_url : String
  md5 : String
deriving Repr, DecidableEq

/-- One catalog entry: `latest_version` plus the `versions` mapping (modelled
as an association list from version string to `VersionInfo`). -/
structure CatalogEntry where
  latest_version : String
  versions : List (String × VersionInfo)
deriving Repr, DecidableEq

/-- The remote catalog document: a mapping from corpus name to entry,
modelled as an association list. -/
abbrev Catalog := List (String × CatalogEntry)

/-- A document of the local TinyDB metadata store. -/
structure LocalRecord where
  name : String
  version : String
  file_name : String
deriving Repr, DecidableEq

/-- The Python exceptions the embedded operations can raise. -/
inductive PyExc where
  | keyError : String → PyExc
  | indexError : PyExc
  | fetchError : PyExc
  | hashMismatch : PyExc
  | typeError : PyExc
  | fileNotFound : PyExc
deriving Repr, DecidableEq

/-- Embeds `local_db.search((query.name == name) & (query.version == version))`. -/
def db_search_name_version (store : List LocalRecord) (name version : String) :
    List LocalRecord :=
  store.filter (fun r => r.name == name && r.version == version)

/-- Embeds `local_db.search(query.name == name)`. -/
def db_search_name (store : List LocalRecord) (name : String) : List LocalRecord :=
  store.filter (fun r => r.name == name)

/-- Embeds `local_db.search(query.name == name and query.version == version)`: by
Python short-circuit semantics the truthy `query.name == name` is discarded
and only `query.version == version` is searched. -/
def db_search_version (store : List LocalRecord) (version : String) :
    List LocalRecord :=
  store.filter (fun r => r.version == version)

/-- Embeds `get_corpus_db_detail`: first record matching `name`, else the empty
dict (here `none`).  The real function opens and closes the TinyDB handle
around the single query on every path. -/
def get_corpus_db_detail (store : List LocalRecord) (name : String) :
    Option LocalRecord :=
  match db_search_name store name with
  | [] => none
  | r :: _ => some r

/-- Embeds `get_full_data_path`: joins the configured data directory with a file
name.  The directory is fixed here; only injectivity of the join matters. -/
def get_full_data_path (fname : String) : String :=
  "pythainlp-data/" ++ fname

/-- Python `str.lower()` (the corpus names in play are ASCII): lower-case
every character. -/
def py_lower (s : String) : String :=
  String.mk (s.data.map Char.toLower)

/-- Embeds `_check_hash(dst, md5)`: no-op when `md5` is falsy (empty) or the
sentinel "-"; otherwise raise when the file digest differs.  The file's
actual digest is the oracle argument `fileDigest`. -/
def check_hash (fileDigest : String) (md5 : String) : Except PyExc Unit :=
  if md5 != "" && md5 != "-" then
    if md5 != fileDigest then .error .hashMismatch else .ok ()
  else .ok ()

/-- Everything observable about one `download` call: its outcome (normal
return or raised exception), the resulting store and set of on-disk files,
whether `_download` was invoked, whether the TinyDB handle was opened and
whether it was closed, and which of the two report messages of the
not-forced branch were emitted. -/
structure DownloadResult where
  ret : Except PyExc Bool
  store : List LocalRecord
  files : List String
  fetched : Bool
  dbOpened : Bool
  dbClosed : Bool
  msgUpToDate : Bool
  msgUseForce : Bool
deriving Repr

/-- The `if force or not found:` body of `download`: call `_download`, call
`_check_hash`, then update the record in place if `found` was non-empty,
else insert a new record.  `version'` is the resolved target version,
`corpus_versions` the catalog's entry for it, `found` the result of the
`(name & version)` search. -/
def download_fetch (dl : Option String) (store : List LocalRecord)
    (files : List String) (name version' : String)
    (corpus_versions : VersionInfo) (found : List LocalRecord) :
    DownloadResult :=
  match dl with
  | none =>
      -- _download raises; close() skipped
      { ret := .error .fetchError, store := store, files := files,
        fetched := true, dbOpened := true, dbClosed := false,
        msgUpToDate := false, msgUseForce := false }
  | some fileDigest =>
    let path := get_full_data_path corpus_versions.filename
    let files' := if files.contains path then files else files ++ [path]
    match check_hash fileDigest corpus_versions.md5 with
    | .error e =>
        -- _check_hash raises after the file was written; close() skipped
        { ret := .error e, store := store, files := files',
          fetched := true, dbOpened := true, dbClosed := false,
          msgUpToDate := false, msgUseForce := false }
    | .ok _ =>
      if found.isEmpty then
        { ret := .ok true,
          store := store ++ [{ name := name, version := version',
                               file_name := corpus_versions.filename }],
          files := files', fetched := true, dbOpened := true,
          dbClosed := true, msgUpToDate := false, msgUseForce := false }
      else
        { ret := .ok true,
          store := store.map (fun r =>
            if r.name == name then { r with version := version' } else r),
          files := files', fetched := true, dbOpened := true,
          dbClosed := true, msgUpToDate := false, msgUseForce := false }

/-- The `else:` body of `download` (record found, not forced): report either
"already up to date" — decided by the short-circuited `version`-only
search — or the existing/new version pair with the force instruction. -/
def download_skip (store : List LocalRecord) (files : List String)
    (name version' : String) : DownloadResult :=
  if !(db_search_version store version').isEmpty then
    { ret := .ok true, store := store, files := files,
      fetched := false, dbOpened := true, dbClosed := true,
      msgUpToDate := true, msgUseForce := false }
  else
    match db_search_name store name with
    | [] =>
        -- local_db.search(...)[0] raises IndexError; close() skipped
        { ret := .error .indexError, store := store, files := files,
          fetched := false, dbOpened := true, dbClosed := false,
          msgUpToDate := false, msgUseForce := false }
    | _ :: _ =>
        { ret := .ok true, store := store, files := files,
          fetched := false, dbOpened := true, dbClosed := true,
          msgUpToDate := false, msgUseForce := true }

/-- The part of `download` after the catalog entry was fetched, from the
version lookup on, with the target version already resolved to `version'`. -/
def download_entry (dl : Option String) (store : List LocalRecord)
    (files : List String) (name : String) (force : Bool) (version' : String)
    (corpus : CatalogEntry) : DownloadResult :=
  match corpus.versions.lookup version' with
  | none =>
      -- corpus["versions"][version] raises KeyError; close() skipped
      { ret := .error (.keyError version'), store := store,
        files := files, fetched := false, dbOpened := true,
        dbClosed := false, msgUpToDate := false, msgUseForce := false }
  | some corpus_versions =>
    if force || (db_search_name_version store name version').isEmpty then
      download_fetch dl store files name version' corpus_versions
        (db_search_name_version store name version')
    else
      download_skip store files name version'

/-- Embeds `download(name, force, url, version)`.  Oracles: `catalog` is the parsed
result of `get_corpus_db` (`none` when the transport failed and the catalog
is unusable), `dl` is the behaviour of `_download` (`none` when the network
fetch raises, `some d` when it writes the file whose content digest is `d`).
`store` is the TinyDB document list, `files` the set of existing on-disk
paths.  Mirrors the source, including: the case-sensitive membership check
followed by the lower-cased entry fetch, the `(name & version)` search
deciding both the fetch and update-vs-insert, and the `close()` that is
only reached on normal returns. -/
def download (catalog : Option Catalog) (dl : Option String)
    (store : List LocalRecord) (files : List String)
    (name : String) (force : Bool) (version : Option String) : DownloadResult :=
  match catalog with
  | none =>
      { ret := .ok false, store := store, files := files, fetched := false,
        dbOpened := false, dbClosed := false,
        msgUpToDate := false, msgUseForce := false }
  | some corpus_db =>
    if (corpus_db.map Prod.fst).contains name then
      -- local_db = TinyDB(corpus_db_path())  [handle opened here]
      match corpus_db.lookup (py_lower name) with
      | none =>
          -- corpus_db[name.lower()] raises KeyError; close() is skipped
          { ret := .error (.keyError (py_lower name)), store := store,
            files := files, fetched := false, dbOpened := true,
            dbClosed := false, msgUpToDate := false, msgUseForce := false }
      | some corpus =>
        download_entry dl store files name force
          (version.getD corpus.latest_version) corpus
    else
      { ret := .ok false, store := store, files := files, fetched := false,
        dbOpened := false, dbClosed := false,
        msgUpToDate := false, msgUseForce := false }

/-- Result of `get_corpus_path`: the returned path (or `None`), or a raised
exception, together with the store and filesystem state at exit (the
triggered `download` calls can mutate both). -/
structure PathResult where
  ret : Except PyExc (Option String)
  store : List LocalRecord
  files : List String
deriving Repr

/-- Second half of `get_corpus_path`: from the (possibly refreshed) local
record, build the path, re-download if the file is missing on disk, and
return the path only if the file then exists. -/
def get_corpus_path_check (catalog : Option Catalog) (dl : Option String)
    (store : List LocalRecord) (files : List String) (name : String) :
    PathResult :=
  match get_corpus_db_detail store name with
  | some r =>
    if r.file_name != "" then
      let path := get_full_data_path r.file_name
      if !(files.contains path) then
        let d := download catalog dl store files name false none
        match d.ret with
        | .error e => { ret := .error e, store := d.store, files := d.files }
        | .ok _ =>
          if d.files.contains path then
            { ret := .ok (some path), store := d.store, files := d.files }
          else
            { ret := .ok none, store := d.store, files := d.files }
      else
        { ret := .ok (some path), store := store, files := files }
    else
      { ret := .ok none, store := store, files := files }
  | none => { ret := .ok none, store := store, files := files }

/-- Embeds `get_corpus_path(name)`: consult the local record; on a missing record
(or record without a usable `file_name`) trigger `download` and re-read;
then resolve and check the on-disk file via `get_corpus_path_check`. -/
def get_corpus_path (catalog : Option Catalog) (dl : Option String)
    (store : List LocalRecord) (files : List String) (name : String) :
    PathResult :=
  let detail := get_corpus_db_detail store name
  let missing := match detail with
    | none => true
    | some r => r.file_name == ""
  if missing then
    let d := download catalog dl store files name false none
    match d.ret with
    | .error e => { ret := .error e, store := d.store, files := d.files }
    | .ok _ => get_corpus_path_check catalog dl d.store d.files name
  else
    get_corpus_path_check catalog dl store files name

/-- Result of `remove`: normal boolean return or raised exception, plus the
final store and filesystem state. -/
structure RemoveResult where
  ret : Except PyExc Bool
  store : List LocalRecord
  files : List String
deriving Repr

/-- Embeds `remove(name)`: if a record exists, resolve the path with
`get_corpus_path`, call `os.remove(path)` — which raises `TypeError` on a
`None` path and `FileNotFoundError` on a missing file — then delete the
record and return `True`; else return `False`.  On a raise the record is
not deleted. -/
def remove (catalog : Option Catalog) (dl : Option String)
    (store : List LocalRecord) (files : List String) (name : String) :
    RemoveResult :=
  let data := db_search_name store name
  if !data.isEmpty then
    let p := get_corpus_path catalog dl store files name
    match p.ret with
    | .error e => { ret := .error e, store := p.store, files := p.files }
    | .ok none =>
        -- os.remove(None) raises TypeError
        { ret := .error .typeError, store := p.store, files := p.files }
    | .ok (some path) =>
      if p.files.contains path then
        { ret := .ok true,
          store := p.store.filter (fun r => r.name != name),
          files := p.files.erase path }
      else
        -- os.remove on an absent file raises FileNotFoundError
        { ret := .error .fileNotFound, store := p.store, files := p.files }
  else
    { ret := .ok false, store := store, files := files }

/-- The configured corpus directory that `get_corpus` joins file names onto. -/
def corpus_path : String := "pythainlp/corpus/"

/-- Strip a leading byte-order mark, as Python's `utf-8-sig` decoding does. -/
def strip_bom (s : String) : String :=
  if s.startsWith "\uFEFF" then s.drop 1 else s

/-- Python `str.splitlines` restricted to newline-terminated lines: split on
the newline character without producing a trailing empty line. -/
def py_splitlines (s : String) : List String :=
  let parts := s.splitOn "\n"
  if parts.getLast? == some "" then parts.dropLast else parts

/-- Embeds `get_corpus(filename)`: open the file at the corpus directory joined
with `filename` — raising FileNotFoundError when absent — and return its
distinct lines (the frozenset is modelled as a duplicate-free list).  The
filesystem is the association list `fs` from path to content. -/
def get_corpus (fs : List (String × String)) (filename : String) :
    Except PyExc (List String) :=
  match fs.lookup (corpus_path ++ filename) with
  | none => .error .fileNotFound
  | some content => .ok (py_splitlines (strip_bom content)).dedup

/-! Concrete data used by witnesses and counterexamples. -/

/-- A version entry whose md5 is the sentinel "-" (skip the check). -/
def vinfo_ttc : VersionInfo :=
  { filename := "ttc_freq.txt", download_url := "http://example/ttc.txt",
    md5 := "-" }

/-- A version entry with a real expected digest. -/
def vinfo_hash : VersionInfo :=
  { filename := "ttc_freq.txt", download_url := "http://example/ttc.txt",
    md5 := "abc123" }

/-- Catalog entry for corpus "ttc", latest version "1.0". -/
def entry_ttc : CatalogEntry :=
  { latest_version := "1.0", versions := [("1.0", vinfo_ttc)] }

/-- Catalog entry whose single version carries a real expected digest. -/
def entry_hash : CatalogEntry :=
  { latest_version := "1.0", versions := [("1.0", vinfo_hash)] }

/-- A one-corpus catalog with lower-case key "ttc". -/
def cat_ttc : Catalog := [("ttc", entry_ttc)]

/-- A one-corpus catalog whose entry requires a digest check. -/
def cat_hash : Catalog := [("ttc", entry_hash)]

/-- A one-corpus catalog whose key "TTC" is not all lower-case. -/
def cat_upper : Catalog := [("TTC", entry_ttc)]

/-! Helper lemmas shared by the claim theorems. -/

/-- A record matching both `name` and `version` also matches the
version-only search that the short-circuited `and` query performs. -/
theorem search_version_of_search_name_version (store : List LocalRecord)
    (name version : String)
    (h : db_search_name_version store name version ≠ []) :
    db_search_version store version ≠ [] := by
  intro hnil
  apply h
  simp only [db_search_version, List.filter_eq_nil_iff] at hnil
  simp only [db_search_name_version, List.filter_eq_nil_iff]
  intro a ha hpa
  refine hnil a ha ?_
  simp only [Bool.and_eq_true] at hpa
  exact hpa.2

/-- No branch of the fetch body emits the retry-with-force report. -/
theorem fetch_use_force (dl store files name version' vi found) :
    (download_fetch dl store files name version' vi found).msgUseForce = false := by
  unfold download_fetch
  repeat' split
  all_goals rfl

/-- When a record matching `(name, version')` exists, the skip body takes
the "already up to date" branch, not the retry-with-force one. -/
theorem skip_use_force (store files name version')
    (hfound : db_search_name_version store name version' ≠ []) :
    (download_skip store files name version').msgUseForce = false := by
  unfold download_skip
  have h := search_version_of_search_name_version store name version' hfound
  rw [if_pos]
  simpa using h

/-- The retry-with-force report is unreachable from the entry stage. -/
theorem entry_use_force (dl store files name force version' corpus) :
    (download_entry dl store files name force version' corpus).msgUseForce = false := by
  unfold download_entry
  repeat' split
  · rfl
  · exact fetch_use_force ..
  · rename_i hcond
    apply skip_use_force
    intro hnil
    apply hcond
    simp [hnil]

/-- In the fetch body the handle is closed exactly on normal returns. -/
theorem fetch_closed (dl store files name version' vi found) :
    (download_fetch dl store files name version' vi found).dbClosed =
      (download_fetch dl store files name version' vi found).ret.isOk ∧
    (download_fetch dl store files name version' vi found).dbOpened = true := by
  unfold download_fetch
  repeat' split
  all_goals exact ⟨rfl, rfl⟩

/-- In the skip body the handle is closed exactly on normal returns. -/
theorem skip_closed (store files name version') :
    (download_skip store files name version').dbClosed =
      (download_skip store files name version').ret.isOk ∧
    (download_skip store files name version').dbOpened = true := by
  unfold download_skip
  repeat' split
  all_goals exact ⟨rfl, rfl⟩

/-- From the entry stage on the handle is closed exactly on normal returns. -/
theorem entry_closed (dl store files name force version' corpus) :
    (download_entry dl store files name force version' corpus).dbClosed =
      (download_entry dl store files name force version' corpus).ret.isOk ∧
    (download_entry dl store files name force version' corpus).dbOpened = true := by
  unfold download_entry
  repeat' split
  · exact ⟨rfl, rfl⟩
  · exact fetch_closed ..
  · exact skip_closed ..

/-- Any normal return of the fetch body is `True`. -/
theorem fetch_ok_true (dl store files name version' vi found b)
    (h : (download_fetch dl store files name version' vi found).ret = .ok b) :
    b = true := by
  unfold download_fetch at h
  repeat' split at h
  all_goals simp_all

/-- Any normal return of the skip body is `True`. -/
theorem skip_ok_true (store files name version' b)
    (h : (download_skip store files name version').ret = .ok b) :
    b = true := by
  unfold download_skip at h
  repeat' split at h
  all_goals simp_all

/-- Any normal return from the entry stage on is `True`. -/
theorem entry_ok_true (dl store files name force version' corpus b)
    (h : (download_entry dl store files name force version' corpus).ret = .ok b) :
    b = true := by
  unfold download_entry at h
  repeat' split at h
  · simp_all
  · exact fetch_ok_true _ _ _ _ _ _ _ _ h
  · exact skip_ok_true _ _ _ _ _ h

/-- A `download` call that reaches the fetch branch with an empty
`(name, version)` search and passes the hash check returns `True`, fetches,
and appends a brand-new record to the store. -/
theorem download_inserts (cat : Catalog) (dg : String)
    (store : List LocalRecord) (files : List String)
    (name : String) (force : Bool) (version : Option String)
    (entry : CatalogEntry) (vi : VersionInfo)
    (hmem : (cat.map Prod.fst).contains name = true)
    (hent : cat.lookup (py_lower name) = some entry)
    (hv : entry.versions.lookup (version.getD entry.latest_version) = some vi)
    (hfound : db_search_name_version store name
      (version.getD entry.latest_version) = [])
    (hhash : check_hash dg vi.md5 = .ok ()) :
    (download (some cat) (some dg) store files name force version).ret = .ok true ∧
    (download (some cat) (some dg) store files name force version).fetched = true ∧
    (download (some cat) (some dg) store files name force version).store =
      store ++ [{ name := name, version := version.getD entry.latest_version,
                  file_name := vi.filename }] := by
  simp only [download, hmem, if_true, hent, download_entry, hv, hfound,
    List.isEmpty_nil, Bool.or_true, if_pos, download_fetch, hhash]
  simp

/-- Appending a record whose name matches extends the name search by it. -/
theorem append_search_name (store : List LocalRecord) (r : LocalRecord)
    (name : String) (h : r.name = name) :
    db_search_name (store ++ [r]) name = db_search_name store name ++ [r] := by
  simp [db_search_name, List.filter_append, h]

/-! Claim theorems. -/

/-- C1 counterexample: with a local record for "ttc" at version "0.9" and a
catalog offering "1.0", a plain successful `download("ttc")` leaves TWO
records named "ttc" in the store — it inserted instead of updating in
place, so the at-most-one-record-per-name invariant is not preserved. -/
theorem C1_counterexample :
    (download (some cat_ttc) (some "d")
      [{ name := "ttc", version := "0.9", file_name := "ttc_freq.txt" }] []
      "ttc" false none).ret = .ok true ∧
    (download (some cat_ttc) (some "d")
      [{ name := "ttc", version := "0.9", file_name := "ttc_freq.txt" }] []
      "ttc" false none).store =
      [{ name := "ttc", version := "0.9", file_name := "ttc_freq.txt" },
       { name := "ttc", version := "1.0", file_name := "ttc_freq.txt" }] ∧
    (db_search_name (download (some cat_ttc) (some "d")
      [{ name := "ttc", version := "0.9", file_name := "ttc_freq.txt" }] []
      "ttc" false none).store "ttc").length = 2 :=
  ⟨rfl, rfl, rfl⟩

/-- C1 amended: the `(name & version)` search is empty when the existing
record holds a different version, so a successful non-forced download of a
new version appends a second record for the same name: the at-most-one
invariant is broken, not preserved; the in-place update only happens when a
record with the very same name and version already exists. -/
theorem C1_amended_insert_breaks_uniqueness (cat : Catalog) (dg : String)
    (store : List LocalRecord) (files : List String)
    (name : String) (version : Option String)
    (entry : CatalogEntry) (vi : VersionInfo)
    (hmem : (cat.map Prod.fst).contains name = true)
    (hent : cat.lookup (py_lower name) = some entry)
    (hv : entry.versions.lookup (version.getD entry.latest_version) = some vi)
    (hfound : db_search_name_version store name
      (version.getD entry.latest_version) = [])
    (hhash : check_hash dg vi.md5 = .ok ())
    (hex : db_search_name store name ≠ []) :
    (download (some cat) (some dg) store files name false version).ret =
      .ok true ∧
    2 ≤ (db_search_name
      (download (some cat) (some dg) store files name false version).store
      name).length := by
  obtain ⟨h1, _, h3⟩ := download_inserts cat dg store files name false version
    entry vi hmem hent hv hfound hhash
  refine ⟨h1, ?_⟩
  rw [h3, append_search_name _ _ _ rfl, List.length_append]
  have hlen : 1 ≤ (db_search_name store name).length := by
    cases hsn : db_search_name store name
    · exact absurd hsn hex
    · simp
  simp only [List.length_singleton]
  omega

/-- C1 witness: the amended theorem applied to the concrete store holding
"ttc" at version "0.9" while the catalog offers "1.0". -/
theorem C1_witness :
    (download (some cat_ttc) (some "d")
      [{ name := "ttc", version := "0.9", file_name := "ttc_freq.txt" }] []
      "ttc" false none).ret = .ok true ∧
    2 ≤ (db_search_name (download (some cat_ttc) (some "d")
      [{ name := "ttc", version := "0.9", file_name := "ttc_freq.txt" }] []
      "ttc" false none).store "ttc").length :=
  C1_amended_insert_breaks_uniqueness cat_ttc "d"
    [{ name := "ttc", version := "0.9", file_name := "ttc_freq.txt" }] []
    "ttc" none entry_ttc vinfo_ttc rfl rfl rfl rfl rfl (by simp [db_search_name])

/-- C2 counterexample: with a local record for "ttc" at version "0.8" and
the catalog offering "1.0", a non-forced `download("ttc")` DOES perform the
fetch and never emits the existing-version/new-version retry-with-force
report. -/
theorem C2_counterexample :
    (download (some cat_ttc) (some "d")
      [{ name := "ttc", version := "0.8", file_name := "ttc_freq.txt" }] []
      "ttc" false none).fetched = true ∧
    (download (some cat_ttc) (some "d")
      [{ name := "ttc", version := "0.8", file_name := "ttc_freq.txt" }] []
      "ttc" false none).msgUseForce = false :=
  ⟨rfl, rfl⟩

/-- C2 amended: when the local record's version differs from the requested
one and `force` is false, download fetches and appends a fresh record (an
implicit upgrade by duplication); the report-and-retry-with-force branch is
unreachable on every input, because the search guarding it short-circuits
to a version-only query that the guarding `found` record always satisfies. -/
theorem C2_amended_fetches_and_inserts :
    (∀ catalog dl store files name force version,
      (download catalog dl store files name force version).msgUseForce =
        false) ∧
    (∀ (cat : Catalog) (dg : String) (store : List LocalRecord)
       (files : List String) (name : String) (version : Option String)
       (entry : CatalogEntry) (vi : VersionInfo),
      (cat.map Prod.fst).contains name = true →
      cat.lookup (py_lower name) = some entry →
      entry.versions.lookup (version.getD entry.latest_version) = some vi →
      db_search_name_version store name
        (version.getD entry.latest_version) = [] →
      check_hash dg vi.md5 = .ok () →
      (download (some cat) (some dg) store files name false version).fetched =
        true ∧
      (download (some cat) (some dg) store files name false version).store =
        store ++ [{ name := name,
                    version := version.getD entry.latest_version,
                    file_name := vi.filename }]) := by
  constructor
  · intro catalog dl store files name force version
    unfold download
    repeat' split
    all_goals first | rfl | exact entry_use_force ..
  · intro cat dg store files name version entry vi hmem hent hv hfound hhash
    obtain ⟨_, h2, h3⟩ := download_inserts cat dg store files name false
      version entry vi hmem hent hv hfound hhash
    exact ⟨h2, h3⟩

/-- C2 witness: both parts of the amended claim at the concrete store
holding "ttc" at version "0.8" while the catalog offers "1.0". -/
theorem C2_witness :
    (download (some cat_ttc) (some "x")
      [{ name := "ttc", version := "0.8", file_name := "ttc_freq.txt" }] []
      "ttc" false none).msgUseForce = false ∧
    (download (some cat_ttc) (some "x")
      [{ name := "ttc", version := "0.8", file_name := "ttc_freq.txt" }] []
      "ttc" false none).fetched = true :=
  ⟨C2_amended_fetches_and_inserts.1 (some cat_ttc) (some "x")
      [{ name := "ttc", version := "0.8", file_name := "ttc_freq.txt" }] []
      "ttc" false none,
   (C2_amended_fetches_and_inserts.2 cat_ttc "x"
      [{ name := "ttc", version := "0.8", file_name := "ttc_freq.txt" }] []
      "ttc" none entry_ttc vinfo_ttc rfl rfl rfl rfl rfl).1⟩

/-- C3: when the flow reaches the fetch branch and the downloaded file's
digest differs from a non-sentinel expected digest, `_check_hash` raises,
the call fails with the integrity error, and the store is left exactly as
it was — no record inserted or updated. -/
theorem C3_integrity_failure_leaves_store (cat : Catalog) (dg : String)
    (store : List LocalRecord) (files : List String)
    (name : String) (force : Bool) (version : Option String)
    (entry : CatalogEntry) (vi : VersionInfo)
    (hmem : (cat.map Prod.fst).contains name = true)
    (hent : cat.lookup (py_lower name) = some entry)
    (hv : entry.versions.lookup (version.getD entry.latest_version) = some vi)
    (hbranch : force = true ∨ db_search_name_version store name
      (version.getD entry.latest_version) = [])
    (h1 : vi.md5 ≠ "") (h2 : vi.md5 ≠ "-") (h3 : vi.md5 ≠ dg) :
    (download (some cat) (some dg) store files name force version).ret =
      .error .hashMismatch ∧
    (download (some cat) (some dg) store files name force version).store =
      store := by
  have hhash : check_hash dg vi.md5 = .error .hashMismatch := by
    unfold check_hash
    rw [if_pos, if_pos]
    · simp [h3]
    · simp [h1, h2]
  have hcond : (force || (db_search_name_version store name
      (version.getD entry.latest_version)).isEmpty) = true := by
    rcases hbranch with h | h
    · simp [h]
    · simp [h]
  simp only [download, hmem, if_true, hent, download_entry, hv, hcond,
    if_pos, download_fetch, hhash]
  exact ⟨trivial, trivial⟩

/-- C3 witness: a catalog entry expecting digest "abc123" while the
downloaded file's digest is "badbad": the call fails with the integrity
error and the empty store stays empty. -/
theorem C3_witness :
    (download (some cat_hash) (some "badbad") [] [] "ttc" false none).ret =
      .error .hashMismatch ∧
    (download (some cat_hash) (some "badbad") [] [] "ttc" false none).store =
      [] :=
  C3_integrity_failure_leaves_store cat_hash "badbad" [] [] "ttc" false none
    entry_hash vinfo_hash rfl rfl rfl (Or.inr rfl)
    (by decide) (by decide) (by decide)

/-- C4: the code violates the claim — with a record for "ttc" whose on-disk
file is absent (and the catalog unreachable, so the re-download inside
`get_corpus_path` cannot restore it), `remove("ttc")` raises instead of
completing: `get_corpus_path` returns `None` and `os.remove(None)` is a
`TypeError`; the metadata record is NOT deleted and `True` is never
returned. -/
theorem C4_remove_missing_file_raises :
    (remove none (some "d")
      [{ name := "ttc", version := "1.0", file_name := "ttc_freq.txt" }] []
      "ttc").ret = .error .typeError ∧
    (remove none (some "d")
      [{ name := "ttc", version := "1.0", file_name := "ttc_freq.txt" }] []
      "ttc").store =
      [{ name := "ttc", version := "1.0", file_name := "ttc_freq.txt" }] :=
  ⟨rfl, rfl⟩

/-- C5 counterexample: a download whose integrity check fails opens the
TinyDB handle and exits by the raised exception without closing it. -/
theorem C5_counterexample :
    (download (some cat_hash) (some "wrong00") [] [] "ttc" false none).ret =
      .error .hashMismatch ∧
    (download (some cat_hash) (some "wrong00") [] [] "ttc" false none).dbOpened =
      true ∧
    (download (some cat_hash) (some "wrong00") [] [] "ttc" false none).dbClosed =
      false :=
  ⟨rfl, rfl, rfl⟩

/-- C5 amended: `download` closes the store handle exactly on the exits
that return normally — `dbClosed = dbOpened && ret.isOk` on every input —
so every exception exit (entry lookup, version lookup, fetch, integrity
check, index error) leaks the open handle. -/
theorem C5_amended_close_iff_normal_return (catalog : Option Catalog)
    (dl : Option String) (store : List LocalRecord) (files : List String)
    (name : String) (force : Bool) (version : Option String) :
    (download catalog dl store files name force version).dbClosed =
      ((download catalog dl store files name force version).dbOpened &&
       (download catalog dl store files name force version).ret.isOk) := by
  unfold download
  repeat' split
  · rfl
  · rfl
  · rename_i corpus heq
    have h := entry_closed dl store files name force
      (version.getD corpus.latest_version) corpus
    simp [h.1, h.2]
  · rfl

/-- C6: the existence check matches the caller-supplied name against the
catalog keys case-sensitively, but the entry is then fetched under the
lower-cased name; whenever the two disagree — the name passes the check
while its lower-casing is not a key — the fetch raises a KeyError carrying
the lower-cased key. -/
theorem C6_case_asymmetry (cat : Catalog) (dl : Option String)
    (store : List LocalRecord) (files : List String)
    (name : String) (force : Bool) (version : Option String)
    (hmem : (cat.map Prod.fst).contains name = true)
    (hlow : cat.lookup (py_lower name) = none) :
    (download (some cat) dl store files name force version).ret =
      .error (.keyError (py_lower name)) := by
  simp only [download, hmem, if_true, hlow]

/-- C6 witness: a catalog whose only key is "TTC": the existence check on
the caller-supplied "TTC" succeeds, yet the entry fetch uses the different
key "ttc" and raises. -/
theorem C6_witness :
    (cat_upper.map Prod.fst).contains "TTC" = true ∧
    py_lower "TTC" ≠ "TTC" ∧
    (download (some cat_upper) (some "d") [] [] "TTC" false none).ret =
      .error (.keyError "ttc") :=
  ⟨rfl, by decide,
   C6_case_asymmetry cat_upper (some "d") [] [] "TTC" false none rfl rfl⟩

/-- C7 counterexample: "ttc" is found in the catalog and no integrity
failure occurs (the entry's digest is the sentinel "-", so the integrity
check cannot fail), yet `download` does not return `True`: the requested
version "9.9" is not in the versions mapping and the call raises. -/
theorem C7_counterexample :
    (cat_ttc.map Prod.fst).contains "ttc" = true ∧
    (download (some cat_ttc) (some "d") [] [] "ttc" false (some "9.9")).ret =
      .error (.keyError "9.9") ∧
    (download (some cat_ttc) (some "d") [] [] "ttc" false (some "9.9")).ret ≠
      .ok true :=
  ⟨rfl, rfl, fun h => nomatch h⟩

/-- C7 amended: whenever the corpus name is found in the catalog, every
NORMAL return of `download` is `True` — including the "already up to date"
path with no file transfer — but the call can instead raise (missing
version key, lower-cased entry fetch, failed fetch, failed integrity
check), in which case no value is returned at all. -/
theorem C7_amended_ok_implies_true (cat : Catalog) (dl : Option String)
    (store : List LocalRecord) (files : List String)
    (name : String) (force : Bool) (version : Option String) (b : Bool)
    (hmem : (cat.map Prod.fst).contains name = true)
    (hret : (download (some cat) dl store files name force version).ret =
      .ok b) :
    b = true := by
  unfold download at hret
  simp only [hmem, if_true] at hret
  split at hret
  · simp_all
  · exact entry_ok_true _ _ _ _ _ _ _ _ hret

/-- C7 witness: the amended theorem at a store already holding the
requested version — the "already up to date" path returns normally, and
that normal return is `True`. -/
theorem C7_witness :
    (download (some cat_ttc) (some "d")
      [{ name := "ttc", version := "1.0", file_name := "ttc_freq.txt" }] []
      "ttc" false none).ret = .ok true ∧
    (true : Bool) = true :=
  ⟨rfl,
   C7_amended_ok_implies_true cat_ttc (some "d")
    [{ name := "ttc", version := "1.0", file_name := "ttc_freq.txt" }] []
    "ttc" false none true rfl rfl⟩

/-- C8: when the catalog fetch fails at the transport layer, `download`
returns `False` normally (no exception), mutates nothing, and never even
opens the metadata store. -/
theorem C8_transport_failure (dl : Option String) (store : List LocalRecord)
    (files : List String) (name : String) (force : Bool)
    (version : Option String) :
    download none dl store files name force version =
      { ret := .ok false, store := store, files := files, fetched := false,
        dbOpened := false, dbClosed := false,
        msgUpToDate := false, msgUseForce := false } :=
  rfl

/-- C9: when the resolved target version (caller-supplied, or the entry's
`latest_version`) is not a key of the entry's versions mapping, `download`
raises the lookup exception to its caller instead of returning `False`. -/
theorem C9_missing_version_raises (cat : Catalog) (dl : Option String)
    (store : List LocalRecord) (files : List String)
    (name : String) (force : Bool) (version : Option String)
    (entry : CatalogEntry)
    (hmem : (cat.map Prod.fst).contains name = true)
    (hent : cat.lookup (py_lower name) = some entry)
    (hv : entry.versions.lookup (version.getD entry.latest_version) = none) :
    (download (some cat) dl store files name force version).ret =
      .error (.keyError (version.getD entry.latest_version)) := by
  simp only [download, hmem, if_true, hent, download_entry, hv]

/-- C9 witness: requesting version "2.0" of "ttc" whose catalog entry only
has "1.0" raises the lookup exception for "2.0". -/
theorem C9_witness :
    (download (some cat_ttc) (some "d") [] [] "ttc" false (some "2.0")).ret =
      .error (.keyError "2.0") :=
  C9_missing_version_raises cat_ttc (some "d") [] [] "ttc" false (some "2.0")
    entry_ttc rfl rfl rfl

/-- C10: when no file exists at the corpus directory joined with the given
filename, `get_corpus` raises the file-not-found error; in particular it
never returns a frozenset, empty or not. -/
theorem C10_get_corpus_missing_raises (fs : List (String × String))
    (filename : String)
    (h : fs.lookup (corpus_path ++ filename) = none) :
    get_corpus fs filename = .error .fileNotFound ∧
    ∀ l, get_corpus fs filename ≠ .ok l := by
  have he : get_corpus fs filename = .error .fileNotFound := by
    unfold get_corpus
    rw [h]
  exact ⟨he, fun l hl => by rw [he] at hl; exact nomatch hl⟩

/-- C10 witness: an empty filesystem has no file for "negations_th.txt",
so `get_corpus` raises and in particular does not return the empty set. -/
theorem C10_witness :
    get_corpus [] "negations_th.txt" = .error .fileNotFound ∧
    get_corpus [] "negations_th.txt" ≠ .ok [] :=
  ⟨(C10_get_corpus_missing_raises [] "negations_th.txt" rfl).1,
   (C10_get_corpus_missing_raises [] "negations_th.txt" rfl).2 []⟩

end PyThaiNLP

